import Mathlib

set_option autoImplicit false

/-!
Verification of the multi-asset sensor evaluation engine
(`python_modules/dagster/dagster/_core/definitions/sensor_definition.py`).

The development shallowly embeds the cursor data model, the per-tick cursor
advance accumulator (`MultiAssetSensorCursorAdvances`), the tick context
operations that the claims mention, and the cursor codec
(`MultiAssetSensorContextCursor`).  Python dicts are modelled as
insertion-ordered association lists, Python sets of ints as duplicate-free
lists, event storage ids as `Int` (Python ints), and raised exceptions as
`Except String`.
-/

namespace DagsterSensor

/-- A materialization event record from the event log: a monotonically
increasing storage id, the asset key (stringified, as used for cursor keys),
and an optional partition (`dagster_event.partition`). -/
structure EventLogRecord where
  storage_id : Int
  asset_key : String
  partition : Option String
deriving DecidableEq

/-- The event-log store, an external collaborator: the full list of
ASSET_MATERIALIZATION event records, queryable by asset key and id bounds. -/
abbrev EventStore := List EventLogRecord

/-- Python dict lookup `d.get(k)` on an insertion-ordered association list. -/
def dictGet {κ α : Type} [BEq κ] (d : List (κ × α)) (k : κ) : Option α :=
  (d.find? (fun e => e.1 == k)).map (fun e => e.2)

/-- Python dict assignment `d[k] = v`: overwrite in place if the key is
present, otherwise append at the end (insertion order preserved). -/
def dictInsert {κ α : Type} [BEq κ] (k : κ) (v : α) : List (κ × α) → List (κ × α)
  | [] => [(k, v)]
  | e :: es => if e.1 == k then (k, v) :: es else e :: dictInsert k v es

/-- Python dict `d.pop(k)`: remove the (unique) entry for the key. -/
def dictRemove {κ α : Type} [BEq κ] (k : κ) : List (κ × α) → List (κ × α)
  | [] => []
  | e :: es => if e.1 == k then es else e :: dictRemove k es

/-- Python `k in d` membership test on an association list. -/
def dictContains {κ α : Type} [BEq κ] (d : List (κ × α)) (k : κ) : Bool :=
  d.any (fun e => e.1 == k)

/-- Python `s.add(i)` on a set of ints modelled as a duplicate-free list. -/
def setAdd (i : Int) (s : List Int) : List Int :=
  if s.contains i then s else s ++ [i]

/-- Insert into a list that is sorted ascending by the measure `f`. -/
def insertAscBy {α : Type} (f : α → Int) (x : α) : List α → List α
  | [] => [x]
  | y :: ys => if f x ≤ f y then x :: y :: ys else y :: insertAscBy f x ys

/-- Sort ascending by the measure `f` (models Python `sorted` and the
store returning records in ascending storage-id order). -/
def sortAscBy {α : Type} (f : α → Int) (l : List α) : List α :=
  l.foldr (insertAscBy f) []

/-- Python `max` over a nonempty list of ints (0 placeholder for `[]`,
which the code never reaches: it is guarded by a nonemptiness check). -/
def listMax (l : List Int) : Int :=
  l.foldl max (l.headD 0)

/-- MAX_NUM_UNCONSUMED_EVENTS from the source: the hard backlog cap. -/
def MAX_NUM_UNCONSUMED_EVENTS : Nat := 25

/-- MultiAssetSensorAssetCursorComponent: per-asset cursor state, a
3-field named tuple. -/
structure MultiAssetSensorAssetCursorComponent where
  latest_consumed_event_partition : Option String
  latest_consumed_event_id : Option Int
  trailing_unconsumed_partitioned_event_ids : List (String × Int)
deriving DecidableEq

/-- The unpacked cursor: stringified asset key mapped to its component
(`_cursor_component_by_asset_key` of `MultiAssetSensorContextCursor`). -/
abbrev CursorMap := List (String × MultiAssetSensorAssetCursorComponent)

/-- MultiAssetSensorContextCursor.get_cursor_for_asset: the stored component,
or an all-empty component when the key is absent. -/
def get_cursor_for_asset (m : CursorMap) (k : String) :
    MultiAssetSensorAssetCursorComponent :=
  (dictGet m k).getD ⟨none, none, []⟩

/-- The helper `_get_partition_key_from_event_log_record`. -/
def _get_partition_key_from_event_log_record (e : EventLogRecord) : Option String :=
  e.partition

/-- instance.get_event_records with an EventRecordsFilter on one asset key,
exclusive after/before storage-id bounds, ascending order. -/
def get_event_records_ascending (store : EventStore) (key : String)
    (after_cursor : Option Int) (before_cursor : Option Int) : List EventLogRecord :=
  sortAscBy (fun e => e.storage_id)
    (store.filter (fun e =>
      e.asset_key == key
        && (match after_cursor with
            | some a => decide (a < e.storage_id)
            | none => true)
        && (match before_cursor with
            | some b => decide (e.storage_id < b)
            | none => true)))

/-- Lookup in the tick-start unconsumed-event cache
(`_initial_unconsumed_events_by_id`), which is keyed by storage id over the
whole store, with no asset-key restriction. -/
def find_event_by_id (store : EventStore) (i : Int) : Option EventLogRecord :=
  store.find? (fun e => e.storage_id == i)

/-- get_trailing_unconsumed_events composed with
`_get_unconsumed_events_with_ids`: look up the ids stored in the component
trailing map, in ascending sorted order, skipping ids with no cached event. -/
def get_trailing_unconsumed_events (store : EventStore)
    (comp : MultiAssetSensorAssetCursorComponent) : List EventLogRecord :=
  (sortAscBy (fun i => i)
      (comp.trailing_unconsumed_partitioned_event_ids.map (fun e => e.2))).filterMap
    (find_event_by_id store)

/-- MultiAssetSensorCursorAdvances: the per-tick accumulator of advancement
requests. -/
structure MultiAssetSensorCursorAdvances where
  advanced_record_ids_by_key : List (String × List Int)
  partition_key_by_record_id : List (Int × Option String)
  advance_all_cursors_called : Bool
deriving DecidableEq

/-- The freshly constructed accumulator (`MultiAssetSensorCursorAdvances()`). -/
def emptyAdvances : MultiAssetSensorCursorAdvances := ⟨[], [], false⟩

/-- MultiAssetSensorCursorAdvances.add_advanced_records: for each entry with
an actual record, add its storage id to the key's advanced set and record the
partition of that storage id. -/
def add_advanced_records (adv : MultiAssetSensorCursorAdvances)
    (materialization_records_by_key : List (String × Option EventLogRecord)) :
    MultiAssetSensorCursorAdvances :=
  materialization_records_by_key.foldl
    (fun a kr =>
      match kr.2 with
      | none => a
      | some r =>
        { a with
          advanced_record_ids_by_key :=
            dictInsert kr.1
              (setAdd r.storage_id ((dictGet a.advanced_record_ids_by_key kr.1).getD []))
              a.advanced_record_ids_by_key
          partition_key_by_record_id :=
            dictInsert r.storage_id (_get_partition_key_from_event_log_record r)
              a.partition_key_by_record_id })
    adv

/-- The event sequence folded over in get_asset_cursor_with_advances:
the tick-start trailing unconsumed events followed by the freshly fetched
events strictly between the tick-start consumed id and the greatest advanced
id, the fetch happening only when the greatest advanced id exceeds the
tick-start consumed id (unset counting as 0). -/
def unconsumed_events_for_tick (store : EventStore) (asset_key : String)
    (initial_asset_cursor : MultiAssetSensorAssetCursorComponent)
    (greatest_consumed_event_id_in_tick : Int) : List EventLogRecord :=
  get_trailing_unconsumed_events store initial_asset_cursor ++
    (if greatest_consumed_event_id_in_tick >
        (initial_asset_cursor.latest_consumed_event_id.getD 0) then
      get_event_records_ascending store asset_key
        initial_asset_cursor.latest_consumed_event_id
        (some greatest_consumed_event_id_in_tick)
    else [])

/-- The per-event bookkeeping loop of get_asset_cursor_with_advances:
iterate in ascending order, storing the latest unconsumed event id per
partition; an event in the advanced set clears the entry for its partition;
unpartitioned events are ignored. -/
def fold_unconsumed_events (advanced_records : List Int)
    (start : List (String × Int)) (events : List EventLogRecord) :
    List (String × Int) :=
  events.foldl
    (fun m event =>
      match _get_partition_key_from_event_log_record event with
      | none => m
      | some partition =>
        if !(advanced_records.contains event.storage_id) then
          dictInsert partition event.storage_id m
        else if dictContains m partition then
          dictRemove partition m
        else m)
    start

/-- The recomputed trailing-unconsumed map of get_asset_cursor_with_advances
(the path taken when advance_all_cursors was not called): fold the tick event
sequence over the tick-start trailing map, then drop the partition of the
greatest advanced event if it is present. -/
def computed_trailing_map (store : EventStore)
    (adv : MultiAssetSensorCursorAdvances) (asset_key : String)
    (initial_cursor : CursorMap) : List (String × Int) :=
  let advanced_records := (dictGet adv.advanced_record_ids_by_key asset_key).getD []
  let initial_asset_cursor := get_cursor_for_asset initial_cursor asset_key
  let greatest_consumed_event_id_in_tick := listMax advanced_records
  let latest_consumed_partition_in_tick :=
    (dictGet adv.partition_key_by_record_id greatest_consumed_event_id_in_tick).getD none
  let m :=
    fold_unconsumed_events advanced_records
      initial_asset_cursor.trailing_unconsumed_partitioned_event_ids
      (unconsumed_events_for_tick store asset_key initial_asset_cursor
        greatest_consumed_event_id_in_tick)
  match latest_consumed_partition_in_tick with
  | some p => if dictContains m p then dictRemove p m else m
  | none => m

/-- The error raised when the backlog cap is reached. -/
def max_unconsumed_error : String :=
  "You have reached the maximum number of trailing unconsumed events"

/-- MultiAssetSensorCursorAdvances.get_asset_cursor_with_advances: derive the
next cursor component for one asset from the tick-start cursor, the advance
requests, and fresh access to the store.  A raised
DagsterInvariantViolationError is an `.error` result. -/
def get_asset_cursor_with_advances (store : EventStore)
    (adv : MultiAssetSensorCursorAdvances) (asset_key : String)
    (initial_cursor : CursorMap) :
    Except String MultiAssetSensorAssetCursorComponent :=
  let advanced_records := (dictGet adv.advanced_record_ids_by_key asset_key).getD []
  if advanced_records.isEmpty then
    .ok (get_cursor_for_asset initial_cursor asset_key)
  else
    let initial_asset_cursor := get_cursor_for_asset initial_cursor asset_key
    let latest_consumed_event_id_at_tick_start :=
      initial_asset_cursor.latest_consumed_event_id
    let greatest_consumed_event_id_in_tick := listMax advanced_records
    let latest_consumed_partition_in_tick :=
      (dictGet adv.partition_key_by_record_id greatest_consumed_event_id_in_tick).getD none
    let latest_unconsumed_record_by_partition :=
      if adv.advance_all_cursors_called then []
      else computed_trailing_map store adv asset_key initial_cursor
    if !adv.advance_all_cursors_called
        && decide (MAX_NUM_UNCONSUMED_EVENTS ≤ latest_unconsumed_record_by_partition.length) then
      .error max_unconsumed_error
    else
      .ok
        { latest_consumed_event_partition :=
            if greatest_consumed_event_id_in_tick >
                (latest_consumed_event_id_at_tick_start.getD 0) then
              latest_consumed_partition_in_tick
            else initial_asset_cursor.latest_consumed_event_partition
          latest_consumed_event_id :=
            if greatest_consumed_event_id_in_tick >
                (latest_consumed_event_id_at_tick_start.getD 0) then
              some greatest_consumed_event_id_in_tick
            else latest_consumed_event_id_at_tick_start
          trailing_unconsumed_partitioned_event_ids :=
            latest_unconsumed_record_by_partition }

/-- The dict comprehension of get_cursor_with_advances: one component per
tracked asset key, with a raised error propagating out. -/
def cursor_components_for_keys (store : EventStore)
    (adv : MultiAssetSensorCursorAdvances) (initial_cursor : CursorMap) :
    List String → Except String CursorMap
  | [] => .ok []
  | k :: ks =>
    match get_asset_cursor_with_advances store adv k initial_cursor with
    | .error e => .error e
    | .ok c =>
      match cursor_components_for_keys store adv initial_cursor ks with
      | .error e => .error e
      | .ok rest => .ok ((k, c) :: rest)

/-- MultiAssetSensorCursorAdvances.get_cursor_with_advances: `none` (the
no-change signal) when no events were marked as advanced, otherwise the
freshly computed cursor map for all tracked keys. -/
def get_cursor_with_advances (store : EventStore) (asset_keys : List String)
    (adv : MultiAssetSensorCursorAdvances) (initial_cursor : CursorMap) :
    Except String (Option CursorMap) :=
  if adv.advanced_record_ids_by_key.isEmpty then .ok none
  else
    match cursor_components_for_keys store adv initial_cursor asset_keys with
    | .error e => .error e
    | .ok m => .ok (some m)

/-! Cursor codec.  The persisted cursor is a JSON string; `json.loads` and
`json.dumps` are modelled by a small JSON value type: decoding operates on
the loaded value, and serialization renders a value faithfully to the
`json.dumps` output for this shape (default separators, no escapes needed
for the characters the engine writes). -/

/-- A JSON value as produced by json.loads for cursor strings. -/
inductive Json where
  | null
  | num (n : Int)
  | str (s : String)
  | arr (elements : List Json)
  | obj (entries : List (String × Json))

/-- Python `len` applied to a loaded JSON value: defined on arrays, strings
and objects, a TypeError otherwise. -/
def pyLen : Json → Except String Nat
  | .arr l => .ok l.length
  | .str s => .ok s.length
  | .obj l => .ok l.length
  | _ => .error "object has no len"

/-- check.opt_str_param on a loaded JSON field: None or str, otherwise a
raised check error. -/
def check_opt_str_param : Json → Except String (Option String)
  | .null => .ok none
  | .str s => .ok (some s)
  | _ => .error "check failed: expected str or None"

/-- check.opt_int_param on a loaded JSON field: None or int, otherwise a
raised check error. -/
def check_opt_int_param : Json → Except String (Option Int)
  | .null => .ok none
  | .num n => .ok (some n)
  | _ => .error "check failed: expected int or None"

/-- check.dict_param with str keys and int values, on the entries of a
loaded JSON object. -/
def check_trailing_entries : List (String × Json) → Except String (List (String × Int))
  | [] => .ok []
  | (k, .num n) :: rest =>
    match check_trailing_entries rest with
    | .error e => .error e
    | .ok l => .ok ((k, n) :: l)
  | _ => .error "check failed: expected int dict value"

/-- check.dict_param(key_type=str, value_type=int) on a loaded JSON field:
must be an object of int values. -/
def check_dict_str_int_param : Json → Except String (List (String × Int))
  | .obj l => check_trailing_entries l
  | _ => .error "check failed: expected dict"

/-- Construction of a MultiAssetSensorAssetCursorComponent from the three
unpacked fields of a stored cursor entry, with the checks the constructor
performs. -/
def component_of_cursor_list (partition_key event_id trailing : Json) :
    Except String MultiAssetSensorAssetCursorComponent :=
  match check_opt_str_param partition_key with
  | .error e => .error e
  | .ok p =>
    match check_opt_int_param event_id with
    | .error e => .error e
    | .ok i =>
      match check_dict_str_int_param trailing with
      | .error e => .error e
      | .ok t => .ok ⟨p, i, t⟩

/-- The entry loop of MultiAssetSensorContextCursor.__init__: process the
entries of the loaded cursor object in order; an entry whose value does not
have length 3 stops the loop (`break`), keeping what was already unpacked; a
length-3 value that is not a well-typed 3-field list raises a check error
(unpacking a 3-character string or 3-key object always fails the int check
on its second field). -/
def decode_cursor_entries : List (String × Json) → CursorMap → Except String CursorMap
  | [], acc => .ok acc
  | (str_asset_key, v) :: rest, acc =>
    match pyLen v with
    | .error e => .error e
    | .ok n =>
      if n ≠ 3 then .ok acc
      else
        match v with
        | .arr [partition_key, event_id, trailing] =>
          match component_of_cursor_list partition_key event_id trailing with
          | .error e => .error e
          | .ok comp => decode_cursor_entries rest (dictInsert str_asset_key comp acc)
        | _ => .error "check failed: expected int or None"

/-- MultiAssetSensorContextCursor.__init__ applied to a loaded cursor value:
`loaded_cursor.items()` requires a JSON object (an AttributeError otherwise),
then the entry loop runs. -/
def decode_loaded_cursor : Json → Except String CursorMap
  | .obj entries => decode_cursor_entries entries []
  | _ => .error "loaded cursor has no attribute items"

/-- MultiAssetSensorContextCursor.__init__ including the
`json.loads(cursor) if cursor else` branch: a missing (falsy) cursor string
loads as the empty object. -/
def decode_cursor : Option Json → Except String CursorMap
  | none => .ok []
  | some j => decode_loaded_cursor j

/-- Serialization of an optional string field by json.dumps. -/
def encodeOptStr : Option String → Json
  | none => .null
  | some s => .str s

/-- Serialization of an optional int field by json.dumps. -/
def encodeOptInt : Option Int → Json
  | none => .null
  | some n => .num n

/-- Serialization of one cursor component: a named tuple dumps as a 3-field
JSON list. -/
def encode_component (c : MultiAssetSensorAssetCursorComponent) : Json :=
  .arr [encodeOptStr c.latest_consumed_event_partition,
        encodeOptInt c.latest_consumed_event_id,
        .obj (c.trailing_unconsumed_partitioned_event_ids.map (fun e => (e.1, Json.num e.2)))]

/-- Serialization of the cursor map (the value json.dumps receives in
get_cursor_with_advances and get_stringified_cursor). -/
def encode_cursor (m : CursorMap) : Json :=
  .obj (m.map (fun e => (e.1, encode_component e.2)))

/-- Rendering of a trailing map to its json.dumps text. -/
def render_trailing : List (String × Int) → String
  | [] => ""
  | [(k, v)] => "\x22" ++ k ++ "\x22: " ++ toString v
  | (k, v) :: rest => "\x22" ++ k ++ "\x22: " ++ toString v ++ ", " ++ render_trailing rest

/-- Rendering of an optional string field to its json.dumps text. -/
def render_opt_str : Option String → String
  | none => "null"
  | some s => "\x22" ++ s ++ "\x22"

/-- Rendering of an optional int field to its json.dumps text. -/
def render_opt_int : Option Int → String
  | none => "null"
  | some n => toString n

/-- Rendering of one component to its json.dumps text. -/
def render_component (c : MultiAssetSensorAssetCursorComponent) : String :=
  "[" ++ render_opt_str c.latest_consumed_event_partition ++ ", " ++
    render_opt_int c.latest_consumed_event_id ++ ", \x7b" ++
    render_trailing c.trailing_unconsumed_partitioned_event_ids ++ "\x7d]"

/-- Rendering of the entries of a cursor map to their json.dumps text. -/
def render_cursor_entries : CursorMap → String
  | [] => ""
  | [(k, c)] => "\x22" ++ k ++ "\x22: " ++ render_component c
  | (k, c) :: rest =>
    "\x22" ++ k ++ "\x22: " ++ render_component c ++ ", " ++ render_cursor_entries rest

/-- json.dumps of a cursor map, the serialized cursor string persisted
between ticks. -/
def render_cursor (m : CursorMap) : String :=
  "\x7b" ++ render_cursor_entries m ++ "\x7d"

/-! Tick context state and operations. -/

/-- The mutable per-tick state of MultiAssetSensorEvaluationContext that the
claims concern: the tracked keys, the persisted cursor string, the unpacked
cursor, the updated flag, and the advance accumulator. -/
structure MultiAssetSensorContextState where
  asset_keys : List String
  cursor : Option String
  unpacked_cursor : CursorMap
  cursor_has_been_updated : Bool
  cursor_advance_state_mutation : MultiAssetSensorCursorAdvances
deriving DecidableEq

/-- The single most recent materialization of one asset strictly after the
given cursor bound (get_event_records descending with limit 1). -/
def latest_materialization_for_key (store : EventStore) (key : String)
    (after_cursor : Option Int) : Option EventLogRecord :=
  (get_event_records_ascending store key after_cursor none).getLast?

/-- latest_materialization_records_by_key with no explicit key list: for each
tracked asset, the latest event after its consumed id, or none. -/
def latest_materialization_records_by_key (store : EventStore)
    (st : MultiAssetSensorContextState) : List (String × Option EventLogRecord) :=
  st.asset_keys.map (fun k =>
    (k, latest_materialization_for_key store k
          (get_cursor_for_asset st.unpacked_cursor k).latest_consumed_event_id))

/-- MultiAssetSensorEvaluationContext.advance_cursor: record the advancement
requests and flag the cursor as updated; no visible state is mutated. -/
def advance_cursor (st : MultiAssetSensorContextState)
    (materialization_records_by_key : List (String × Option EventLogRecord)) :
    MultiAssetSensorContextState :=
  { st with
    cursor_advance_state_mutation :=
      add_advanced_records st.cursor_advance_state_mutation materialization_records_by_key
    cursor_has_been_updated := true }

/-- MultiAssetSensorEvaluationContext.advance_all_cursors: advance every
tracked key to its latest materialization result, set the clear-all flag, and
flag the cursor as updated. -/
def advance_all_cursors (store : EventStore) (st : MultiAssetSensorContextState) :
    MultiAssetSensorContextState :=
  { st with
    cursor_advance_state_mutation :=
      { add_advanced_records st.cursor_advance_state_mutation
          (latest_materialization_records_by_key store st) with
        advance_all_cursors_called := true }
    cursor_has_been_updated := true }

/-- MultiAssetSensorEvaluationContext.update_cursor_after_evaluation: ask the
accumulator for the next cursor; on the no-change signal the persisted cursor
string and all context state are left untouched, otherwise the new string is
stored, re-unpacked (equal to the computed map by the codec round-trip), and
a fresh accumulator is installed. -/
def update_cursor_after_evaluation (store : EventStore)
    (st : MultiAssetSensorContextState) :
    Except String MultiAssetSensorContextState :=
  match get_cursor_with_advances store st.asset_keys
      st.cursor_advance_state_mutation st.unpacked_cursor with
  | .error e => .error e
  | .ok none => .ok st
  | .ok (some m) =>
    .ok { st with
          cursor := some (render_cursor m)
          unpacked_cursor := m
          cursor_advance_state_mutation := emptyAdvances }

/-- MultiAssetSensorEvaluationContext.get_cursor_partition, translated
faithfully: the membership test runs before the None test, and `None` is
never a member of the tracked key list. -/
def get_cursor_partition (asset_keys : List String) (unpacked : CursorMap)
    (asset_key : Option String) : Except String (Option String) :=
  if !(match asset_key with
       | some k => asset_keys.contains k
       | none => false) then
    .error "Provided asset key must correspond to a provided asset"
  else
    match asset_key with
    | some k => .ok (get_cursor_for_asset unpacked k).latest_consumed_event_partition
    | none =>
      if asset_keys.length == 1 then
        .ok (get_cursor_for_asset unpacked (asset_keys.headD "")).latest_consumed_event_partition
      else .error "Asset key must be provided when multiple assets are defined"

/-! Sensor evaluation driver: the `_fn` wrapper installed by
MultiAssetSensorDefinition.__init__. -/

/-- A result item the user evaluation logic can produce. -/
inductive SensorResultItem where
  | runRequest
  | skipReason
  | pipelineRunReaction
deriving DecidableEq

/-- The shape of the value returned by the user evaluation logic: nothing, a
generator or list of items, or a single bare item. -/
inductive RawSensorResult where
  | noResult
  | generatorOrList (items : List SensorResultItem)
  | single (item : SensorResultItem)
deriving DecidableEq

/-- The runs_yielded flag of the wrapper: set by every item iterated out of a
generator or list and by a bare RunRequest; deliberately not set by a bare
SkipReason, and a bare value of any other type falls through every branch. -/
def runs_yielded : RawSensorResult → Bool
  | .noResult => false
  | .generatorOrList items => !items.isEmpty
  | .single .runRequest => true
  | .single .skipReason => false
  | .single .pipelineRunReaction => false

/-- The items the wrapper re-yields for each result shape. -/
def yielded_items : RawSensorResult → List SensorResultItem
  | .noResult => []
  | .generatorOrList items => items
  | .single .runRequest => [.runRequest]
  | .single .skipReason => [.skipReason]
  | .single .pipelineRunReaction => []

/-- The error message of the cursor-not-updated guard. -/
def cursor_not_updated_error : String :=
  "Asset materializations have been handled in this sensor, but the cursor was not updated."

/-- The guard-and-finalize tail of the `_fn` wrapper: raise when runs were
yielded without a cursor update, otherwise finalize and yield the items. -/
def sensor_tick_body (store : EventStore) (st : MultiAssetSensorContextState)
    (r : RawSensorResult) :
    Except String (List SensorResultItem × MultiAssetSensorContextState) :=
  if runs_yielded r && !st.cursor_has_been_updated then
    .error cursor_not_updated_error
  else
    match update_cursor_after_evaluation store st with
    | .error e => .error e
    | .ok st2 => .ok (yielded_items r, st2)

/-- The `_fn` wrapper of MultiAssetSensorDefinition: a None result returns
before finalization; otherwise the items are yielded, the guard raises when
runs were yielded without a cursor update, and finalization runs at the end.
The context state passed in is the state after the user logic ran. -/
def sensor_tick (store : EventStore) (st : MultiAssetSensorContextState)
    (result : RawSensorResult) :
    Except String (List SensorResultItem × MultiAssetSensorContextState) :=
  match result with
  | .noResult => .ok ([], st)
  | r => sensor_tick_body store st r

/-! Claim C1: the claim's description of the trailing-map recomputation, and
concrete inputs for the claim's scenario and for the counterexample. -/

/-- Trailing-unconsumed map as claim C1 words it: start from the tick-start
trailing map, process in ascending id order only the freshly fetched events
with id strictly between the tick-start consumed id (exclusive) and the
maximum advanced id (exclusive) — an event not in the advanced set overwrites
the entry for its partition, an event in the advanced set removes the entry,
unpartitioned events are ignored — then remove the partition of the maximum
advanced event if present as a key. -/
def claim_C1_trailing_map (store : EventStore)
    (adv : MultiAssetSensorCursorAdvances) (asset_key : String)
    (initial_cursor : CursorMap) : List (String × Int) :=
  let advanced_records := (dictGet adv.advanced_record_ids_by_key asset_key).getD []
  let initial_asset_cursor := get_cursor_for_asset initial_cursor asset_key
  let greatest := listMax advanced_records
  let m :=
    fold_unconsumed_events advanced_records
      initial_asset_cursor.trailing_unconsumed_partitioned_event_ids
      (get_event_records_ascending store asset_key
        initial_asset_cursor.latest_consumed_event_id (some greatest))
  match (dictGet adv.partition_key_by_record_id greatest).getD none with
  | some p => if dictContains m p then dictRemove p m else m
  | none => m

/-- Trailing-unconsumed map as the amended claim words it: like
`claim_C1_trailing_map`, but the processed ascending sequence starts with the
tick-start trailing-unconsumed events themselves (looked up by id), followed
by the freshly fetched in-between events. -/
def claim_C1_amended_trailing_map (store : EventStore)
    (adv : MultiAssetSensorCursorAdvances) (asset_key : String)
    (initial_cursor : CursorMap) : List (String × Int) :=
  let advanced_records := (dictGet adv.advanced_record_ids_by_key asset_key).getD []
  let initial_asset_cursor := get_cursor_for_asset initial_cursor asset_key
  let greatest := listMax advanced_records
  let m :=
    fold_unconsumed_events advanced_records
      initial_asset_cursor.trailing_unconsumed_partitioned_event_ids
      (get_trailing_unconsumed_events store initial_asset_cursor ++
        get_event_records_ascending store asset_key
          initial_asset_cursor.latest_consumed_event_id (some greatest))
  match (dictGet adv.partition_key_by_record_id greatest).getD none with
  | some p => if dictContains m p then dictRemove p m else m
  | none => m

/-- Scenario store of claim C1: events 10 and 15 on partition p1, event 12 on
partition p2, all for asset A. -/
def store_sc : EventStore :=
  [⟨10, "A", some "p1"⟩, ⟨12, "A", some "p2"⟩, ⟨15, "A", some "p1"⟩]

/-- Scenario tick-start cursor of claim C1: prior consumed id 9, no trailing
backlog. -/
def initial_sc : CursorMap := [("A", ⟨none, some 9, []⟩)]

/-- Scenario advances of claim C1: advance_cursor with event 15. -/
def adv_sc : MultiAssetSensorCursorAdvances :=
  add_advanced_records emptyAdvances [("A", some ⟨15, "A", some "p1"⟩)]

/-- Counterexample store for claim C1: two events that are exactly the
tick-start trailing backlog of asset A. -/
def store_c1 : EventStore := [⟨3, "A", some "p1"⟩, ⟨5, "A", some "p2"⟩]

/-- Counterexample tick-start cursor for claim C1: consumed id 9 with the two
backlog events trailing. -/
def initial_c1 : CursorMap := [("A", ⟨some "p0", some 9, [("p1", 3), ("p2", 5)]⟩)]

/-- Counterexample advances for claim C1: two advance_cursor calls consuming
exactly the two trailing backlog events. -/
def adv_c1 : MultiAssetSensorCursorAdvances :=
  add_advanced_records
    (add_advanced_records emptyAdvances [("A", some ⟨3, "A", some "p1"⟩)])
    [("A", some ⟨5, "A", some "p2"⟩)]

/-- Helper: a filter over a list on which the predicate is everywhere false
is empty. -/
theorem filter_eq_nil_of_false {α : Type} (p : α → Bool) :
    ∀ l : List α, (∀ a ∈ l, p a = false) → l.filter p = [] := by
  intro l h
  induction l with
  | nil => rfl
  | cons x xs ih =>
    have hx : p x = false := h x (List.mem_cons_self x xs)
    rw [List.filter_cons, hx]
    simp only [Bool.false_eq_true, if_false]
    exact ih (fun a ha => h a (List.mem_cons_of_mem x ha))

/-- Helper: a bounded store query whose exclusive bounds describe an empty
range of positive ids returns nothing. -/
theorem fetch_empty_of_le (store : EventStore) (key : String)
    (after_cursor : Option Int) (b : Int)
    (hpos : ∀ e ∈ store, 0 < e.storage_id) (h : b ≤ after_cursor.getD 0) :
    get_event_records_ascending store key after_cursor (some b) = [] := by
  unfold get_event_records_ascending
  rw [filter_eq_nil_of_false]
  · rfl
  · intro e he
    cases after_cursor with
    | some a =>
      simp only [Option.getD_some] at h
      rw [Bool.eq_false_iff]
      intro hcontr
      have hXA := ((Bool.and_eq_true _ _).mp hcontr).1
      have hA := of_decide_eq_true ((Bool.and_eq_true _ _).mp hXA).2
      have hB := of_decide_eq_true ((Bool.and_eq_true _ _).mp hcontr).2
      omega
    | none =>
      simp only [Option.getD_none] at h
      rw [Bool.eq_false_iff]
      intro hcontr
      have hB := of_decide_eq_true ((Bool.and_eq_true _ _).mp hcontr).2
      have := hpos e he
      omega

/-- Claim C1: for a tracked asset with advance requests (advance_all_cursors
not called), the finalized trailing-unconsumed map starts from the tick-start
trailing map and overlays, in ascending id order, the freshly fetched events
strictly between the tick-start consumed id and the maximum advanced id,
then removes the partition of the maximum advanced event; in the scenario
with events 10(p1), 12(p2), 15(p1), prior consumed id 9 and event 15
advanced, the result is consumed id 15, partition p1, trailing map p2 to 12.
Amended: the processed sequence additionally starts with the tick-start
trailing-unconsumed events themselves (so a trailing event whose id is in
the advanced set has its partition entry removed), and for stores with
positive storage ids this equals the engine computation; the concrete
scenario holds exactly as stated. -/
theorem claim_C1_theorem :
    (∀ (store : EventStore) (adv : MultiAssetSensorCursorAdvances)
        (asset_key : String) (initial_cursor : CursorMap),
        (∀ e ∈ store, 0 < e.storage_id) →
        computed_trailing_map store adv asset_key initial_cursor =
          claim_C1_amended_trailing_map store adv asset_key initial_cursor) ∧
      get_asset_cursor_with_advances store_sc adv_sc "A" initial_sc =
        .ok ⟨some "p1", some 15, [("p2", 12)]⟩ := by
  constructor
  · intro store adv asset_key initial_cursor hpos
    unfold computed_trailing_map claim_C1_amended_trailing_map unconsumed_events_for_tick
    by_cases hg :
        listMax ((dictGet adv.advanced_record_ids_by_key asset_key).getD []) >
          ((get_cursor_for_asset initial_cursor asset_key).latest_consumed_event_id.getD 0)
    · simp only [if_pos hg]
    · simp only [if_neg hg]
      rw [fetch_empty_of_le store asset_key _ _ hpos (by omega)]
  · rfl

/-- Witness for claim C1: the amended general equation applied at the
counterexample inputs, whose event ids are concretely positive. -/
theorem claim_C1_witness :
    computed_trailing_map store_c1 adv_c1 "A" initial_c1 =
      claim_C1_amended_trailing_map store_c1 adv_c1 "A" initial_c1 :=
  claim_C1_theorem.1 store_c1 adv_c1 "A" initial_c1 (by decide)

/-- Counterexample for claim C1: advancing the two trailing backlog events
3(p1) and 5(p2) under prior consumed id 9 makes the engine clear the whole
trailing map, while the algorithm as the claim states it (processing only
events strictly between the consumed id 9 and the maximum advanced id 5,
i.e. nothing, then removing the maximum advanced partition p2) keeps the
entry p1 to 3. -/
theorem claim_C1_counterexample :
    get_asset_cursor_with_advances store_c1 adv_c1 "A" initial_c1 =
        .ok ⟨some "p0", some 9, []⟩ ∧
      claim_C1_trailing_map store_c1 adv_c1 "A" initial_c1 = [("p1", 3)] :=
  ⟨rfl, rfl⟩

/-- Helper: a nonempty list is not isEmpty. -/
theorem isEmpty_false_of_ne_nil {α : Type} {l : List α} (h : l ≠ []) :
    l.isEmpty = false := by
  cases l with
  | nil => exact absurd rfl h
  | cons x xs => rfl

/-- Claim C2: for a tracked asset with advance requests, the finalized
consumed event id and partition become the maximum advanced id and its
recorded partition exactly when that maximum exceeds the tick-start consumed
id (unset counting as 0); otherwise both consumed fields keep their
tick-start values; the trailing map is the recomputed one in either case. -/
theorem claim_C2_theorem :
    ∀ (store : EventStore) (adv : MultiAssetSensorCursorAdvances)
      (asset_key : String) (initial_cursor : CursorMap)
      (comp : MultiAssetSensorAssetCursorComponent),
      (dictGet adv.advanced_record_ids_by_key asset_key).getD [] ≠ [] →
      get_asset_cursor_with_advances store adv asset_key initial_cursor = .ok comp →
      ((listMax ((dictGet adv.advanced_record_ids_by_key asset_key).getD []) >
          ((get_cursor_for_asset initial_cursor asset_key).latest_consumed_event_id.getD 0) →
         comp.latest_consumed_event_id =
             some (listMax ((dictGet adv.advanced_record_ids_by_key asset_key).getD [])) ∧
           comp.latest_consumed_event_partition =
             (dictGet adv.partition_key_by_record_id
                 (listMax ((dictGet adv.advanced_record_ids_by_key asset_key).getD []))).getD none) ∧
       (¬ listMax ((dictGet adv.advanced_record_ids_by_key asset_key).getD []) >
          ((get_cursor_for_asset initial_cursor asset_key).latest_consumed_event_id.getD 0) →
         comp.latest_consumed_event_id =
             (get_cursor_for_asset initial_cursor asset_key).latest_consumed_event_id ∧
           comp.latest_consumed_event_partition =
             (get_cursor_for_asset initial_cursor asset_key).latest_consumed_event_partition) ∧
       comp.trailing_unconsumed_partitioned_event_ids =
         (if adv.advance_all_cursors_called then []
          else computed_trailing_map store adv asset_key initial_cursor)) := by
  intro store adv asset_key initial_cursor comp hne hok
  simp only [get_asset_cursor_with_advances, isEmpty_false_of_ne_nil hne,
    Bool.false_eq_true, if_false] at hok
  cases hall : adv.advance_all_cursors_called with
  | true =>
    simp only [hall, Bool.not_true, Bool.false_and, Bool.false_eq_true, if_false,
      if_true] at hok ⊢
    injection hok with hcomp
    subst hcomp
    refine ⟨fun hgt => ?_, fun hle => ?_, rfl⟩
    · simp [if_pos hgt]
    · simp [if_neg hle]
  | false =>
    simp only [hall, Bool.not_false, Bool.true_and, Bool.false_eq_true, if_false] at hok ⊢
    split at hok
    · exact Except.noConfusion hok
    · injection hok with hcomp
      subst hcomp
      refine ⟨fun hgt => ?_, fun hle => ?_, rfl⟩
      · simp [if_pos hgt]
      · simp [if_neg hle]

/-- Witness store for claim C2: a single new event for asset B. -/
def store_w2 : EventStore := [⟨7, "B", some "q"⟩]

/-- Witness advances for claim C2: advance_cursor with that event. -/
def adv_w2 : MultiAssetSensorCursorAdvances :=
  add_advanced_records emptyAdvances [("B", some ⟨7, "B", some "q"⟩)]

/-- Witness for claim C2: instantiated at a tick with an empty tick-start
cursor and one advanced event with id 7 on partition q. -/
theorem claim_C2_witness :
    (listMax ((dictGet adv_w2.advanced_record_ids_by_key "B").getD []) >
        ((get_cursor_for_asset [] "B").latest_consumed_event_id.getD 0) →
      (MultiAssetSensorAssetCursorComponent.mk (some "q") (some 7) []).latest_consumed_event_id =
          some (listMax ((dictGet adv_w2.advanced_record_ids_by_key "B").getD [])) ∧
        (MultiAssetSensorAssetCursorComponent.mk (some "q") (some 7) []).latest_consumed_event_partition =
          (dictGet adv_w2.partition_key_by_record_id
              (listMax ((dictGet adv_w2.advanced_record_ids_by_key "B").getD []))).getD none) ∧
    (¬ listMax ((dictGet adv_w2.advanced_record_ids_by_key "B").getD []) >
        ((get_cursor_for_asset [] "B").latest_consumed_event_id.getD 0) →
      (MultiAssetSensorAssetCursorComponent.mk (some "q") (some 7) []).latest_consumed_event_id =
          (get_cursor_for_asset [] "B").latest_consumed_event_id ∧
        (MultiAssetSensorAssetCursorComponent.mk (some "q") (some 7) []).latest_consumed_event_partition =
          (get_cursor_for_asset [] "B").latest_consumed_event_partition) ∧
    (MultiAssetSensorAssetCursorComponent.mk (some "q") (some 7) []).trailing_unconsumed_partitioned_event_ids =
      (if adv_w2.advance_all_cursors_called then []
       else computed_trailing_map store_w2 adv_w2 "B" []) :=
  claim_C2_theorem store_w2 adv_w2 "B" [] ⟨some "q", some 7, []⟩ (by decide) rfl

/-- Helper: finalization with an empty advanced-record map is the identity
on the context state (the no-change signal path). -/
theorem update_cursor_after_evaluation_nochange (store : EventStore)
    (st : MultiAssetSensorContextState)
    (h : st.cursor_advance_state_mutation.advanced_record_ids_by_key = []) :
    update_cursor_after_evaluation store st = .ok st := by
  unfold update_cursor_after_evaluation get_cursor_with_advances
  rw [h]
  rfl

/-- Claim C3: when no advance call recorded any event during the tick,
finalization is the identity on the whole context state; in particular the
persisted cursor string is byte for byte the tick-start string, whatever
informational queries (which are pure reads here) were made. -/
theorem claim_C3_theorem :
    ∀ (store : EventStore) (st : MultiAssetSensorContextState),
      st.cursor_advance_state_mutation.advanced_record_ids_by_key = [] →
      update_cursor_after_evaluation store st = .ok st := by
  intro store st h
  exact update_cursor_after_evaluation_nochange store st h

/-- Witness context for claim C3: one tracked asset, a nonempty persisted
cursor string, no advances recorded. -/
def st_w3 : MultiAssetSensorContextState :=
  ⟨["A"], some "prior-cursor", [("A", ⟨some "p", some 4, [("r", 2)]⟩)], false, emptyAdvances⟩

/-- Witness for claim C3: finalizing a tick with no recorded advances leaves
the concrete context, including its persisted cursor string, unchanged. -/
theorem claim_C3_witness :
    update_cursor_after_evaluation [] st_w3 = .ok st_w3 :=
  claim_C3_theorem [] st_w3 rfl

/-- Helper: a successful dict lookup returns the value of some entry. -/
theorem dictGet_mem {κ α : Type} [BEq κ] {d : List (κ × α)} {k : κ} {v : α}
    (h : dictGet d k = some v) : ∃ e, e ∈ d ∧ e.2 = v := by
  unfold dictGet at h
  cases hf : d.find? (fun e => e.1 == k) with
  | none => rw [hf] at h; exact Option.noConfusion h
  | some e =>
    rw [hf] at h
    refine ⟨e, List.mem_of_find?_eq_some hf, ?_⟩
    simpa using h

/-- Helper: when every stored component of the tick-start cursor has at most
24 trailing entries, so does the component looked up for any key. -/
theorem get_cursor_for_asset_trailing_le (initial : CursorMap) (k : String)
    (hb : ∀ p ∈ initial,
      p.2.trailing_unconsumed_partitioned_event_ids.length ≤ 24) :
    (get_cursor_for_asset initial k).trailing_unconsumed_partitioned_event_ids.length ≤ 24 := by
  unfold get_cursor_for_asset
  cases hd : dictGet initial k with
  | none => simp
  | some c =>
    obtain ⟨e, he, hev⟩ := dictGet_mem hd
    simpa [hev] using hb e he

/-- Helper: any component returned without error by the per-asset advance
computation has at most 24 trailing entries, provided the tick-start
components do. -/
theorem asset_cursor_trailing_le (store : EventStore)
    (adv : MultiAssetSensorCursorAdvances) (k : String) (initial : CursorMap)
    (comp : MultiAssetSensorAssetCursorComponent)
    (hb : ∀ p ∈ initial,
      p.2.trailing_unconsumed_partitioned_event_ids.length ≤ 24)
    (hok : get_asset_cursor_with_advances store adv k initial = .ok comp) :
    comp.trailing_unconsumed_partitioned_event_ids.length ≤ 24 := by
  simp only [get_asset_cursor_with_advances] at hok
  split at hok
  · injection hok with hcomp
    subst hcomp
    exact get_cursor_for_asset_trailing_le initial k hb
  · cases hflag : adv.advance_all_cursors_called with
    | true =>
      simp only [hflag, Bool.not_true, Bool.false_and, Bool.false_eq_true, if_false,
        if_true] at hok
      injection hok with hcomp
      subst hcomp
      simp
    | false =>
      simp only [hflag, Bool.not_false, Bool.true_and, Bool.false_eq_true, if_false] at hok
      split at hok
      · exact Except.noConfusion hok
      · injection hok with hcomp
        subst hcomp
        rename_i hcond
        have hlt := of_decide_eq_false (Bool.not_eq_true _ |>.mp hcond)
        simp only [MAX_NUM_UNCONSUMED_EVENTS] at hlt
        show (computed_trailing_map store adv k initial).length ≤ 24
        omega

/-- Helper: the per-key component map of a successful finalization is
componentwise bounded by 24 trailing entries, provided the tick-start
components are. -/
theorem components_trailing_le (store : EventStore)
    (adv : MultiAssetSensorCursorAdvances) (initial : CursorMap)
    (hb : ∀ p ∈ initial,
      p.2.trailing_unconsumed_partitioned_event_ids.length ≤ 24) :
    ∀ (keys : List String) (m : CursorMap),
      cursor_components_for_keys store adv initial keys = .ok m →
      ∀ p ∈ m, p.2.trailing_unconsumed_partitioned_event_ids.length ≤ 24 := by
  intro keys
  induction keys with
  | nil =>
    intro m hm p hp
    unfold cursor_components_for_keys at hm
    injection hm with h
    subst h
    simp at hp
  | cons k ks ih =>
    intro m hm p hp
    unfold cursor_components_for_keys at hm
    cases hA : get_asset_cursor_with_advances store adv k initial with
    | error e => rw [hA] at hm; exact Except.noConfusion hm
    | ok c =>
      rw [hA] at hm
      cases hR : cursor_components_for_keys store adv initial ks with
      | error e => rw [hR] at hm; exact Except.noConfusion hm
      | ok rest =>
        rw [hR] at hm
        injection hm with h
        subst h
        rcases List.mem_cons.mp hp with hp1 | hp2
        · subst hp1
          exact asset_cursor_trailing_le store adv k initial c hb hA
        · exact ih rest hR p hp2

/-- Claim C4: with advance requests and advance_all_cursors not called, a
recomputed trailing map of size 25 or more makes the per-asset finalization
raise the backlog invariant violation.  Amended consequence: provided every
tick-start component already respects the 24-entry bound, every component of
a successful finalization does too (a key with no advance requests passes
its tick-start component through unchecked, so the bound on the output needs
the bound on the input). -/
theorem claim_C4_theorem :
    (∀ (store : EventStore) (adv : MultiAssetSensorCursorAdvances)
        (asset_key : String) (initial_cursor : CursorMap),
        adv.advance_all_cursors_called = false →
        (dictGet adv.advanced_record_ids_by_key asset_key).getD [] ≠ [] →
        MAX_NUM_UNCONSUMED_EVENTS ≤
          (computed_trailing_map store adv asset_key initial_cursor).length →
        get_asset_cursor_with_advances store adv asset_key initial_cursor =
          .error max_unconsumed_error) ∧
    (∀ (store : EventStore) (keys : List String)
        (adv : MultiAssetSensorCursorAdvances) (initial_cursor m : CursorMap),
        (∀ p ∈ initial_cursor,
          p.2.trailing_unconsumed_partitioned_event_ids.length ≤ 24) →
        get_cursor_with_advances store keys adv initial_cursor = .ok (some m) →
        ∀ p ∈ m, p.2.trailing_unconsumed_partitioned_event_ids.length ≤ 24) := by
  constructor
  · intro store adv asset_key initial_cursor hflag hne h25
    simp only [get_asset_cursor_with_advances, isEmpty_false_of_ne_nil hne,
      Bool.false_eq_true, if_false, hflag, Bool.not_false, Bool.true_and]
    rw [decide_eq_true h25]
    rfl
  · intro store keys adv initial_cursor m hb hok
    unfold get_cursor_with_advances at hok
    split at hok
    · injection hok with h
      exact Option.noConfusion h
    · cases hR : cursor_components_for_keys store adv initial_cursor keys with
      | error e => rw [hR] at hok; exact Except.noConfusion hok
      | ok m2 =>
        rw [hR] at hok
        injection hok with h
        injection h with h2
        subst h2
        exact components_trailing_le store adv initial_cursor hb keys _ hR

/-- A trailing backlog of 24 distinct partitions with event ids 1 to 24. -/
def trailing24 : List (String × Int) :=
  [("p1", 1), ("p2", 2), ("p3", 3), ("p4", 4), ("p5", 5), ("p6", 6),
   ("p7", 7), ("p8", 8), ("p9", 9), ("p10", 10), ("p11", 11), ("p12", 12),
   ("p13", 13), ("p14", 14), ("p15", 15), ("p16", 16), ("p17", 17),
   ("p18", 18), ("p19", 19), ("p20", 20), ("p21", 21), ("p22", 22),
   ("p23", 23), ("p24", 24)]

/-- Witness store for claim C4: one fresh unconsumed event on a 25th
partition, and the event being advanced. -/
def store_w4 : EventStore := [⟨130, "A", some "p25"⟩, ⟨150, "A", some "q"⟩]

/-- Witness tick-start cursor for claim C4: 24 trailing entries at consumed
id 100. -/
def initial_w4 : CursorMap := [("A", ⟨some "z", some 100, trailing24⟩)]

/-- Witness advances for claim C4: the event with id 150 is advanced. -/
def adv_w4 : MultiAssetSensorCursorAdvances :=
  add_advanced_records emptyAdvances [("A", some ⟨150, "A", some "q"⟩)]

/-- Witness store and advances for the amended consequence of claim C4. -/
def store_w4b : EventStore := [⟨3, "B", none⟩]

/-- Witness advances for the amended consequence of claim C4. -/
def adv_w4b : MultiAssetSensorCursorAdvances :=
  add_advanced_records emptyAdvances [("B", some ⟨3, "B", none⟩)]

/-- Witness for claim C4: starting from 24 trailing entries, an advance that
brings in a 25th distinct-partition unconsumed event fails the tick; and a
concrete successful finalization output component respects the bound. -/
theorem claim_C4_witness :
    get_asset_cursor_with_advances store_w4 adv_w4 "A" initial_w4 =
        .error max_unconsumed_error ∧
      (("B", (⟨none, some 3, []⟩ : MultiAssetSensorAssetCursorComponent)) :
          String × MultiAssetSensorAssetCursorComponent).2.trailing_unconsumed_partitioned_event_ids.length ≤ 24 :=
  ⟨claim_C4_theorem.1 store_w4 adv_w4 "A" initial_w4 rfl (by decide) (by decide),
   claim_C4_theorem.2 store_w4b ["B"] adv_w4b [] [("B", ⟨none, some 3, []⟩)]
     (by simp) rfl ("B", ⟨none, some 3, []⟩) (by simp)⟩

/-- A trailing backlog of 25 distinct partitions with event ids 1 to 25. -/
def trailing25 : List (String × Int) :=
  [("p1", 1), ("p2", 2), ("p3", 3), ("p4", 4), ("p5", 5), ("p6", 6),
   ("p7", 7), ("p8", 8), ("p9", 9), ("p10", 10), ("p11", 11), ("p12", 12),
   ("p13", 13), ("p14", 14), ("p15", 15), ("p16", 16), ("p17", 17),
   ("p18", 18), ("p19", 19), ("p20", 20), ("p21", 21), ("p22", 22),
   ("p23", 23), ("p24", 24), ("p25", 25)]

/-- Counterexample store for claim C4: one advanced event for asset A. -/
def store_c4 : EventStore := [⟨7, "A", some "q"⟩]

/-- Counterexample tick-start cursor for claim C4: asset B carries a
25-entry trailing backlog and receives no advance request. -/
def initial_c4 : CursorMap :=
  [("A", ⟨none, none, []⟩), ("B", ⟨none, some 100, trailing25⟩)]

/-- Counterexample advances for claim C4: only asset A is advanced. -/
def adv_c4 : MultiAssetSensorCursorAdvances :=
  add_advanced_records emptyAdvances [("A", some ⟨7, "A", some "q"⟩)]

/-- Counterexample for claim C4: a finalization that succeeds while its
output contains a component whose trailing map has size 25, because the key
with no advance requests passes its oversized tick-start component through
unchecked — refuting the claim that every component produced by a successful
finalization has a trailing map of size at most 24. -/
theorem claim_C4_counterexample :
    get_cursor_with_advances store_c4 ["A", "B"] adv_c4 initial_c4 =
        .ok (some [("A", ⟨some "q", some 7, []⟩), ("B", ⟨none, some 100, trailing25⟩)]) ∧
      trailing25.length = 25 :=
  ⟨rfl, rfl⟩

/-- Claim C5 (amended): for every tracked asset for which advance_all_cursors
recorded at least one advanced event, the finalized component has an empty
trailing-unconsumed map. -/
theorem claim_C5_theorem :
    ∀ (store : EventStore) (adv : MultiAssetSensorCursorAdvances)
      (asset_key : String) (initial_cursor : CursorMap),
      adv.advance_all_cursors_called = true →
      (dictGet adv.advanced_record_ids_by_key asset_key).getD [] ≠ [] →
      (get_asset_cursor_with_advances store adv asset_key initial_cursor).map
          (fun c => c.trailing_unconsumed_partitioned_event_ids) = .ok [] := by
  intro store adv asset_key initial_cursor hflag hne
  simp only [get_asset_cursor_with_advances, isEmpty_false_of_ne_nil hne,
    Bool.false_eq_true, if_false, hflag, Bool.not_true, Bool.false_and, if_true]
  rfl

/-- Witness store for claim C5: one advanced event for asset C. -/
def store_w5 : EventStore := [⟨6, "C", some "x"⟩]

/-- Witness advances for claim C5: event 6 advanced, with the
advance_all_cursors flag set as advance_all_cursors sets it. -/
def adv_w5 : MultiAssetSensorCursorAdvances :=
  { add_advanced_records emptyAdvances [("C", some ⟨6, "C", some "x"⟩)] with
    advance_all_cursors_called := true }

/-- Witness tick-start cursor for claim C5: asset C starts with a nonempty
trailing backlog. -/
def initial_w5 : CursorMap := [("C", ⟨none, some 9, [("r", 2)]⟩)]

/-- Witness for claim C5: the amended statement applied at a tick where asset
C had a pre-tick backlog and one advanced record. -/
theorem claim_C5_witness :
    (get_asset_cursor_with_advances store_w5 adv_w5 "C" initial_w5).map
        (fun c => c.trailing_unconsumed_partitioned_event_ids) = .ok [] :=
  claim_C5_theorem store_w5 adv_w5 "C" initial_w5 rfl (by decide)

/-- Counterexample store for claim C5: the only event of asset A is the
backlog event with id 5; there is nothing after the consumed id 10. -/
def store_c5 : EventStore := [⟨5, "A", some "p"⟩]

/-- Counterexample context for claim C5: asset A has a trailing backlog entry
and no new materializations. -/
def st_c5 : MultiAssetSensorContextState :=
  ⟨["A"], some "tick-start-cursor", [("A", ⟨some "p", some 10, [("p", 5)]⟩)],
    false, emptyAdvances⟩

/-- Counterexample for claim C5: calling advance_all_cursors on a tick where
no tracked asset has a materialization after its consumed id records no
advanced events, so finalization returns the no-change signal and the
finalized cursor still carries the nonempty trailing backlog — refuting that
advance_all_cursors always yields an empty trailing map for every tracked
asset. -/
theorem claim_C5_counterexample :
    update_cursor_after_evaluation store_c5 (advance_all_cursors store_c5 st_c5) =
        .ok (advance_all_cursors store_c5 st_c5) ∧
      (get_cursor_for_asset (advance_all_cursors store_c5 st_c5).unpacked_cursor
          "A").trailing_unconsumed_partitioned_event_ids = [("p", 5)] ∧
      (advance_all_cursors store_c5 st_c5).cursor = some "tick-start-cursor" :=
  ⟨rfl, rfl, rfl⟩

/-- Helper: decoding the encoded trailing map recovers it. -/
theorem check_trailing_entries_round (t : List (String × Int)) :
    check_trailing_entries (t.map (fun e => (e.1, Json.num e.2))) = .ok t := by
  induction t with
  | nil => rfl
  | cons e rest ih =>
    obtain ⟨k, v⟩ := e
    simp only [List.map_cons, check_trailing_entries, ih]

/-- Helper: decoding the three encoded fields of a component recovers it. -/
theorem component_of_cursor_list_round (c : MultiAssetSensorAssetCursorComponent) :
    component_of_cursor_list (encodeOptStr c.latest_consumed_event_partition)
        (encodeOptInt c.latest_consumed_event_id)
        (.obj (c.trailing_unconsumed_partitioned_event_ids.map
          (fun e => (e.1, Json.num e.2)))) = .ok c := by
  obtain ⟨p, i, t⟩ := c
  cases p <;> cases i <;>
    simp [component_of_cursor_list, encodeOptStr, encodeOptInt,
      check_opt_str_param, check_opt_int_param, check_dict_str_int_param,
      check_trailing_entries_round]

/-- Helper: inserting a fresh key appends the entry at the end. -/
theorem dictInsert_of_fresh {κ α : Type} [BEq κ] (k : κ) (v : α) :
    ∀ acc : List (κ × α), (∀ e ∈ acc, (e.1 == k) = false) →
      dictInsert k v acc = acc ++ [(k, v)] := by
  intro acc h
  induction acc with
  | nil => rfl
  | cons e es ih =>
    have he := h e (List.mem_cons_self e es)
    simp only [dictInsert, he, Bool.false_eq_true, if_false, List.cons_append,
      List.cons.injEq, true_and]
    exact ih (fun e2 h2 => h e2 (List.mem_cons_of_mem e h2))

/-- Helper: one step of the decode loop on an encoded entry unpacks the
component and stores it under its key. -/
theorem decode_cursor_entries_cons_enc (k : String)
    (c : MultiAssetSensorAssetCursorComponent) (rest : List (String × Json))
    (acc : CursorMap) :
    decode_cursor_entries ((k, encode_component c) :: rest) acc =
      decode_cursor_entries rest (dictInsert k c acc) := by
  simp only [decode_cursor_entries, encode_component]
  simp [pyLen, component_of_cursor_list_round c]

/-- Helper: the decode loop over the encoded entries of a duplicate-free
cursor map appends the decoded entries to the accumulator. -/
theorem decode_cursor_entries_append (m : CursorMap) :
    ∀ acc : CursorMap,
      (m.map Prod.fst).Nodup →
      (∀ e ∈ acc, ∀ e2 ∈ m, (e.1 == e2.1) = false) →
      decode_cursor_entries (m.map (fun e => (e.1, encode_component e.2))) acc =
        .ok (acc ++ m) := by
  induction m with
  | nil =>
    intro acc _ _
    simp [decode_cursor_entries]
  | cons hd tl ih =>
    intro acc hnodup hdisj
    obtain ⟨k, c⟩ := hd
    simp only [List.map_cons] at hnodup ⊢
    have hcons := List.nodup_cons.mp hnodup
    have hfresh : ∀ e ∈ acc, (e.1 == k) = false := fun e he =>
      hdisj e he (k, c) (List.mem_cons_self _ _)
    rw [decode_cursor_entries_cons_enc, dictInsert_of_fresh k c acc hfresh,
      ih (acc ++ [(k, c)]) hcons.2 ?hdisj2]
    · simp
    case hdisj2 =>
      intro e he e2 he2
      rcases List.mem_append.mp he with h1 | h2
      · exact hdisj e h1 e2 (List.mem_cons_of_mem _ he2)
      · have he3 : e = (k, c) := by simpa using h2
        subst he3
        have hmem : e2.1 ∈ tl.map Prod.fst := List.mem_map_of_mem Prod.fst he2
        rw [beq_eq_false_iff_ne]
        intro hkeq
        rw [← hkeq] at hmem
        exact hcons.1 hmem

/-- Claim C6: decoding the encoding of any well-formed cursor map (distinct
asset keys) yields the map back unchanged; the string layer json.dumps and
json.loads between which this engine logic sits is modelled as the identity
pair on JSON values. -/
theorem claim_C6_theorem :
    ∀ m : CursorMap, (m.map Prod.fst).Nodup →
      decode_loaded_cursor (encode_cursor m) = .ok m := by
  intro m h
  unfold encode_cursor decode_loaded_cursor
  simpa using decode_cursor_entries_append m [] h (by simp)

/-- Witness cursor map for claim C6: two assets, one with a consumed pointer
and a backlog entry, one empty. -/
def m_w6 : CursorMap :=
  [("A", ⟨some "p", some 3, [("p", 1), ("q", 2)]⟩), ("B", ⟨none, none, []⟩)]

/-- Witness for claim C6: the round trip at the concrete two-asset map. -/
theorem claim_C6_witness :
    decode_loaded_cursor (encode_cursor m_w6) = .ok m_w6 :=
  claim_C6_theorem m_w6 (by simp [m_w6])

/-- Claim C7 (amended): a loaded cursor that is a JSON object whose first
entry value has a length other than 3 (the legacy or differently-shaped
encoding case) decodes, without error, to the empty initial state; decoding
is not forgiving beyond that case — a non-object cursor or an ill-typed
3-field entry raises, and well-typed entries before a bad one are kept. -/
theorem claim_C7_theorem :
    ∀ (k : String) (v : Json) (rest : List (String × Json)) (n : Nat),
      pyLen v = .ok n → n ≠ 3 →
      decode_loaded_cursor (Json.obj ((k, v) :: rest)) = .ok [] := by
  intro k v rest n hlen hne
  unfold decode_loaded_cursor
  simp only [decode_cursor_entries]
  rw [hlen]
  simp [hne]

/-- Witness for claim C7: a stored object whose first entry is a 1-field
list (the asset-reconciliation-sensor cursor shape) decodes to the empty
state with no error, with the remaining entries ignored. -/
theorem claim_C7_witness :
    decode_loaded_cursor
        (Json.obj [("x", Json.arr [Json.num 1]), ("y", Json.num 2)]) = .ok [] :=
  claim_C7_theorem "x" (Json.arr [Json.num 1]) [("y", Json.num 2)] 1 rfl
    (by decide)

/-- Counterexample for claim C7: a cursor string holding a JSON array (not
an object) makes decoding raise instead of yielding the empty state, and a
well-typed entry before an ill-shaped one is kept, so the result is not the
empty initial state either — refuting that every structurally foreign cursor
decodes without error to the empty state. -/
theorem claim_C7_counterexample :
    decode_loaded_cursor (Json.arr []) =
        .error "loaded cursor has no attribute items" ∧
      decode_loaded_cursor
          (Json.obj [("a", Json.arr [Json.null, Json.num 4, Json.obj []]),
                     ("b", Json.arr [])]) =
        .ok [("a", ⟨none, some 4, []⟩)] :=
  ⟨rfl, rfl⟩

/-- Claim C8: in the code, the membership check runs before the omitted-key
branch, so an omitted asset key always raises the invalid-request error even
when exactly one asset is tracked; the claimed return of the single tracked
marker is unreachable. -/
theorem claim_C8_theorem :
    get_cursor_partition ["A"] [("A", ⟨some "p", some 1, []⟩)] none =
        .error "Provided asset key must correspond to a provided asset" ∧
      get_cursor_partition ["A"] [("A", ⟨some "p", some 1, []⟩)] (some "A") =
        .ok (some "p") :=
  ⟨rfl, rfl⟩

/-- Claim C9: for a multi-asset sensor whose user logic yields any
RunRequest or SkipReason (through its generator or list, or a directly
returned RunRequest) while neither advance_cursor nor advance_all_cursors
was called, the tick fails with the cursor-not-updated guard. -/
theorem claim_C9_theorem :
    ∀ (store : EventStore) (st : MultiAssetSensorContextState)
      (items : List SensorResultItem),
      (SensorResultItem.runRequest ∈ items ∨ SensorResultItem.skipReason ∈ items) →
      st.cursor_has_been_updated = false →
      sensor_tick store st (.generatorOrList items) = .error cursor_not_updated_error ∧
        sensor_tick store st (.single .runRequest) = .error cursor_not_updated_error := by
  intro store st items hmem hupd
  have hne : items ≠ [] := by
    rintro rfl
    rcases hmem with h | h <;> simp at h
  constructor
  · simp only [sensor_tick]
    unfold sensor_tick_body
    simp [runs_yielded, hupd, isEmpty_false_of_ne_nil hne]
  · simp only [sensor_tick]
    unfold sensor_tick_body
    simp [runs_yielded, hupd]

/-- Witness context for claim C9: no cursor update happened. -/
def st_w9 : MultiAssetSensorContextState := ⟨["A"], none, [], false, emptyAdvances⟩

/-- Witness for claim C9: a generator yielding one SkipReason, and a bare
RunRequest, each fail the guard when the cursor was never advanced. -/
theorem claim_C9_witness :
    sensor_tick [] st_w9 (.generatorOrList [.skipReason]) =
        .error cursor_not_updated_error ∧
      sensor_tick [] st_w9 (.single .runRequest) = .error cursor_not_updated_error :=
  claim_C9_theorem [] st_w9 [.skipReason] (Or.inr (by simp)) rfl

/-- Helper: adding advancement records in which every value is None changes
nothing in the accumulator. -/
theorem add_advanced_records_all_none (adv : MultiAssetSensorCursorAdvances)
    (records : List (String × Option EventLogRecord))
    (h : ∀ r ∈ records, r.2 = none) :
    add_advanced_records adv records = adv := by
  induction records generalizing adv with
  | nil => rfl
  | cons r rest ih =>
    obtain ⟨k, o⟩ := r
    have hr : o = none := h (k, o) (List.mem_cons_self _ _)
    subst hr
    show add_advanced_records adv ((k, none) :: rest) = adv
    unfold add_advanced_records
    simp only [List.foldl_cons]
    exact ih adv (fun r2 hr2 => h r2 (List.mem_cons_of_mem _ hr2))

/-- Claim C10: an advance_cursor call whose mapping is all-None records no
advanced event, yet marks the cursor as updated, so the missing-advancement
guard does not fire even when results are yielded, finalization takes the
no-change path, and the persisted cursor string is left unchanged. -/
theorem claim_C10_theorem :
    ∀ (store : EventStore) (st : MultiAssetSensorContextState)
      (records : List (String × Option EventLogRecord))
      (items : List SensorResultItem),
      st.cursor_advance_state_mutation.advanced_record_ids_by_key = [] →
      (∀ r ∈ records, r.2 = none) →
      (advance_cursor st records).cursor_has_been_updated = true ∧
        (advance_cursor st records).cursor_advance_state_mutation.advanced_record_ids_by_key = [] ∧
        sensor_tick store (advance_cursor st records) (.generatorOrList items) =
          .ok (items, advance_cursor st records) ∧
        (advance_cursor st records).cursor = st.cursor := by
  intro store st records items h0 hnone
  have hadv : add_advanced_records st.cursor_advance_state_mutation records =
      st.cursor_advance_state_mutation :=
    add_advanced_records_all_none _ _ hnone
  have hkeys : (advance_cursor st records).cursor_advance_state_mutation.advanced_record_ids_by_key = [] := by
    show (add_advanced_records st.cursor_advance_state_mutation records).advanced_record_ids_by_key = []
    rw [hadv]
    exact h0
  have hfin : update_cursor_after_evaluation store (advance_cursor st records) =
      .ok (advance_cursor st records) :=
    update_cursor_after_evaluation_nochange _ _ hkeys
  refine ⟨rfl, hkeys, ?_, rfl⟩
  simp only [sensor_tick]
  unfold sensor_tick_body
  have hupd2 : (advance_cursor st records).cursor_has_been_updated = true := rfl
  rw [hupd2, hfin]
  simp [yielded_items]

/-- Witness records for claim C10: an all-None advancement mapping. -/
def records_w10 : List (String × Option EventLogRecord) := [("A", none), ("B", none)]

/-- Witness context for claim C10: a tick-start context with a persisted
cursor string and yielded run requests. -/
def st_w10 : MultiAssetSensorContextState :=
  ⟨["A", "B"], some "w10-cursor", [("A", ⟨some "p", some 2, []⟩)], false, emptyAdvances⟩

/-- Witness for claim C10: the all-None advance on the concrete context. -/
theorem claim_C10_witness :
    (advance_cursor st_w10 records_w10).cursor_has_been_updated = true ∧
      (advance_cursor st_w10 records_w10).cursor_advance_state_mutation.advanced_record_ids_by_key = [] ∧
      sensor_tick [] (advance_cursor st_w10 records_w10)
          (.generatorOrList [.runRequest]) =
        .ok ([.runRequest], advance_cursor st_w10 records_w10) ∧
      (advance_cursor st_w10 records_w10).cursor = st_w10.cursor :=
  claim_C10_theorem [] st_w10 records_w10 [.runRequest] rfl (by decide)

end DagsterSensor
